import Mathlib

/-!
Verification development for the Wii extension-controller driver library
(`wii_lib.c`, `wii_nunchuck.c`, `wii_classic_controller.c`).

The embedding models the driver state machine at the level of the C source:

* All C enums are embedded as `Int` constants, because the source compares
  values across enum types (for example `WiiLib_QueryParameter(...) ==
  I2C_RC_SUCCESS` in `WiiLib_DetermineDeviceType`), which is only meaningful
  at the integer level.
* `WiiLib_Device` / `WiiLib_Interface` are embedded field by field.  Analog
  fields are `Int` (the C fields are `int8_t`/`int16_t`; assignments truncate,
  which is modelled by explicit `wrap8`/`wrap16`).  Button fields are `Nat`
  (`uint8_t`).
* The I2C bus is modelled as an oracle: an `Env` carries a script of
  transaction results that is consumed in order, and records the list of bus
  operations that were issued, so that theorems can speak about which
  transactions a code path performs.  An empty script yields a bus error.
* Fallible C paths return the return code; `WiiLib_QueryParameter` returns
  `Option Int` because on one path (STATUS query for a Motion Plus target)
  the C function returns the value of an uninitialized local
  (`WiiLib_UpdateInterfaceTracking`, `returnCode` is never assigned on the
  `WII_LIB_TARGET_DEVICE_MOTION_PLUS` arm); `none` models that indeterminate
  return value.
-/

namespace WiiSpec

/-! ## Enum constants (from `wii_lib.h` and `i2c.h`) -/

def WII_LIB_RC_SUCCESS : Int := 0
def WII_LIB_RC_UNSUPPORTED_DEVICE : Int := 1
def WII_LIB_RC_TARGET_NOT_INITIALIZED : Int := 2
def WII_LIB_RC_I2C_ERROR : Int := 3
def WII_LIB_RC_TARGET_ID_MISMATCH : Int := 4
def WII_LIB_RC_UNKOWN_PARAMETER : Int := 5
def WII_LIB_RC_DATA_RECEIVED_IS_INVALID : Int := 6
def WII_LIB_RC_UNABLE_TO_DECRYPT_DATA_RECEIVED : Int := 7
def WII_LIB_RC_DEVICE_DISABLED : Int := 8
def WII_LIB_RC_RELATIVE_POSITION_FEATURE_DISABLED : Int := 9

/-- Success code of the `I2C_RC` enum in `i2c.h`; numerically equal to
`WII_LIB_RC_SUCCESS`, which is what makes the cross-enum comparison in
`WiiLib_DetermineDeviceType` behave like a success test. -/
def I2C_RC_SUCCESS : Int := 0

def WII_LIB_DEVICE_STATUS_NOT_INITIALIZED : Int := 0
def WII_LIB_DEVICE_STATUS_CONFIGURING : Int := 1
def WII_LIB_DEVICE_STATUS_ACTIVE : Int := 2
def WII_LIB_DEVICE_STATUS_DISABLED : Int := 3

/-- Referenced in `wii_lib.c` (`WiiLib_DoMaintenance`) but not defined by any
header in this tree; the library can only work if it differs from the four
defined status values (otherwise `WiiLib_Init`, which sets
`WII_LIB_DEVICE_STATUS_NOT_INITIALIZED` and immediately runs maintenance,
could never reach the connection loop).  Modelled as a distinct sentinel. -/
def WII_LIB_DEVICE_STATUS_STRUCTURE_NOT_DEFINED : Int := 4

/-- Return code referenced in `wii_lib.c` but not defined by the headers in
this tree; modelled as a value distinct from the defined `WII_LIB_RC` codes. -/
def WII_LIB_RC_TARGET_STRUCTURE_NOT_DEFINED : Int := 10

def WII_LIB_TARGET_DEVICE_UNKNOWN : Int := -1
def WII_LIB_TARGET_DEVICE_UNSUPPORTED : Int := 0
def WII_LIB_TARGET_DEVICE_NUNCHUCK : Int := 1
def WII_LIB_TARGET_DEVICE_CLASSIC_CONTROLLER : Int := 2
def WII_LIB_TARGET_DEVICE_MOTION_PLUS : Int := 3
def WII_LIB_TARGET_DEVICE_MOTION_PLUS_PASS_NUNCHUCK : Int := 4
def WII_LIB_TARGET_DEVICE_MOTION_PLUS_PASS_CLASSIC : Int := 5

def WII_LIB_PARAM_STATUS : Nat := 0x00
def WII_LIB_PARAM_RAW_DATA : Nat := 0x20
def WII_LIB_PARAM_DEVICE_TYPE : Nat := 0xFA

def WII_LIB_MAX_CONNECTION_ATTEMPTS : Nat := 5
def WII_LIB_MAX_FAILURES_BEFORE_RECONFIGURING : Nat := 3
def WII_LIB_MAX_FAILURES_BEFORE_DISABLING : Nat := 20

def WII_LIB_ID_LENGTH : Nat := 6
def WII_LIB_MAX_PAYLOAD_SIZE : Nat := 20
def WII_LIB_PARAM_RESPONSE_LEN_DEFAULT : Nat := 6
def WII_LIB_PARAM_RESPONSE_LEN_EXTENDED : Nat := 20

def WII_LIB_ID_NUNCHUCK : List Nat := [0x00, 0x00, 0xA4, 0x20, 0x00, 0x00]
def WII_LIB_ID_CLASSIC_CONTROLLER : List Nat := [0x00, 0x00, 0xA4, 0x20, 0x01, 0x01]
def WII_LIB_ID_WII_MOTION_PLUS : List Nat := [0x00, 0x00, 0xA4, 0x20, 0x04, 0x05]
def WII_LIB_ID_WII_MOTION_PLUS_PASS_NUNCHUCK : List Nat := [0x00, 0x00, 0xA4, 0x20, 0x05, 0x05]
def WII_LIB_ID_WII_MOTION_PLUS_PASS_CLASSIC : List Nat := [0x00, 0x00, 0xA4, 0x20, 0x07, 0x05]

/-! ## Machine-integer helpers -/

/-- Result of storing an `Int` into a C `int16_t` field (two's complement
truncation). -/
def wrap16 (z : Int) : Int := (z + 32768) % 65536 - 32768

/-- Result of storing an `Int` into a C `int8_t` field. -/
def wrap8 (z : Int) : Int := (z + 128) % 256 - 128

def inInt16 (z : Int) : Prop := -32768 ≤ z ∧ z ≤ 32767

def inInt8 (z : Int) : Prop := -128 ≤ z ∧ z ≤ 127

instance (z : Int) : Decidable (inInt16 z) := by unfold inInt16; infer_instance

instance (z : Int) : Decidable (inInt8 z) := by unfold inInt8; infer_instance

/-- C logical negation `!(x & 0x01)` applied to a bitfield value: `1` when the
low bit is clear, `0` otherwise. -/
def bnot1 (b : Nat) : Nat := if b &&& 1 = 0 then 1 else 0

/-! ## Data model (`WiiLib_Interface`, `WiiLib_Device` from `wii_lib.h`) -/

/-- Embedding of `WiiLib_Interface`.  Button flags are `uint8_t` (here `Nat`),
analog members are `int8_t`/`int16_t` (here `Int`, with explicit wrapping at
each store). -/
structure WiiLib_Interface where
  buttonA : Nat
  buttonB : Nat
  buttonC : Nat
  buttonX : Nat
  buttonY : Nat
  buttonZL : Nat
  buttonZR : Nat
  buttonMinus : Nat
  buttonHome : Nat
  buttonPlus : Nat
  dpadLeft : Nat
  dpadUp : Nat
  dpadRight : Nat
  dpadDown : Nat
  buttonLeftTrigger : Nat
  buttonRightTrigger : Nat
  triggerLeft : Int
  triggerRight : Int
  analogLeftX : Int
  analogLeftY : Int
  analogRightX : Int
  analogRightY : Int
  accelX : Int
  accelY : Int
  accelZ : Int
  gyroX : Int
  gyroY : Int
  gyroZ : Int
  deriving Repr, DecidableEq

/-- Embedding of `WiiLib_Device`.  The `i2c` substructure (port configuration,
address, delays) is not represented: no claim depends on it and the driver
code under scrutiny never branches on it. -/
structure WiiLib_Device where
  target : Int
  dataEncrypted : Nat
  calculateRelativePosition : Nat
  dataCurrent : List Nat
  interfaceCurrent : WiiLib_Interface
  interfaceHome : WiiLib_Interface
  interfaceRelative : WiiLib_Interface
  failedParamQueryCount : Nat
  status : Int
  deriving Repr, DecidableEq

/-! ## Bus oracle -/

/-- Result of one I2C transaction as seen by the driver: either the bytes read
(empty for a plain transmit) or a failure. -/
inductive I2CResult where
  | ok (rx : List Nat)
  | err
  deriving Repr, DecidableEq

/-- Bus operations the driver can issue, recorded for frame-effect reasoning. -/
inductive BusOp where
  | transmit (tx : List Nat)
  | txrx (tx : List Nat) (lenRx : Nat)
  deriving Repr, DecidableEq

/-- Oracle environment: a script of transaction outcomes consumed in order,
plus the trace of operations issued so far. -/
structure Env where
  script : List I2CResult
  ops : List BusOp
  deriving Repr, DecidableEq

/-- Perform one bus transaction: consume the next scripted outcome (an
exhausted script behaves as a bus error) and record the operation. -/
def Env.trans (e : Env) (op : BusOp) : I2CResult × Env :=
  match e.script with
  | [] => (I2CResult.err, { script := [], ops := e.ops ++ [op] })
  | r :: rest => (r, { script := rest, ops := e.ops ++ [op] })

/-! ## Payload codec (`WiiLib_ValidateDataReceived`, `WiiLib_Decrypt`) -/

/-- Embedding of `WiiLib_ValidateDataReceived` in `wii_lib.c`: the payload is
valid unless its first `len` bytes all equal `0xFF` (the memcmp against the
`notReady` scratch buffer). -/
def WiiLib_ValidateDataReceived (data : List Nat) (len : Nat) : Bool :=
  !((data.take len).all (fun b => b == 0xFF))

/-- Byte transform of `WiiLib_Decrypt`: `(((b ^ 0x17) + 0x17) & 0x00FF)`. -/
def descrambleByte (b : Nat) : Nat := ((b ^^^ 0x17) + 0x17) % 256

/-- Embedding of `WiiLib_Decrypt` in `wii_lib.c`: transforms the first `len`
bytes in place and always returns success (the failure return code in
`WiiLib_QueryParameter` is dead code, so the return value is not modelled). -/
def WiiLib_Decrypt (data : List Nat) (len : Nat) : List Nat :=
  (data.take len).map descrambleByte ++ data.drop len

/-- Scramble transform as given by the specification (not present in the
source): `((x − 0x17) XOR 0x17) mod 256`.  Defined from the spec text so the
claimed inverse relationship with `descrambleByte` can be stated. -/
def scrambleByteSpec (x : Nat) : Nat := ((x + 256 - 0x17) % 256) ^^^ 0x17

/-- The 20-byte receive buffer of `WiiLib_QueryParameter`: zero-initialised,
with the first `lenOut` wire bytes written into it. -/
def pad20 (xs : List Nat) : List Nat := (xs ++ List.replicate 20 0).take 20

/-! ## Report decoders (`wii_nunchuck.c`, `wii_classic_controller.c`)

The C source reads the 6-byte payload through packed little-endian bitfield
overlays; the embeddings extract the same bits by shift and mask, byte by
byte, following the field layouts in `wii_nunchuck.h` and
`wii_classic_controller.h`. -/

/-- Mirror step at the end of `WiiNunchuck_ProcessStatusParam`: duplicate the
single-sided nunchuck values into the right-hand fields. -/
def nunchuckMirror (i : WiiLib_Interface) : WiiLib_Interface :=
  { i with
    buttonZR := i.buttonZL
    analogRightX := i.analogLeftX
    analogRightY := i.analogLeftY }

/-- Embedding of `WiiNunchuck_ProcessStatusParam`.  Normal layout
(`WiiNunchuck_StatusNormal`): byte 5 is `buttonZ` bit 0, `buttonC` bit 1,
`accelXLow` bits 2-3, `accelYLow` bits 4-5, `accelZLow` bits 6-7.
Pass-through layout (`WiiNunchuck_StatusPassThrough`): byte 4 is
`extensionConnected` bit 0 and `accelZHigh` bits 1-7; byte 5 is reserved
bits 0-1, `buttonZ` bit 2, `buttonC` bit 3, `accelXLow` bit 4, `accelYLow`
bit 5, `accelZLow` bits 6-7. -/
def WiiNunchuck_ProcessStatusParam (d : WiiLib_Device) : Int × WiiLib_Device :=
  let b := fun i => d.dataCurrent.getD i 0
  if d.target = WII_LIB_TARGET_DEVICE_NUNCHUCK then
    let b5 := b 5
    let cur := { d.interfaceCurrent with
      buttonC := bnot1 ((b5 >>> 1) &&& 1)
      buttonZL := bnot1 (b5 &&& 1)
      analogLeftX := ((b 0 : Nat) : Int)
      analogLeftY := ((b 1 : Nat) : Int)
      accelX := (((b 2 <<< 2) ||| ((b5 >>> 2) &&& 0x03) : Nat) : Int)
      accelY := (((b 3 <<< 2) ||| ((b5 >>> 4) &&& 0x03) : Nat) : Int)
      accelZ := (((b 4 <<< 2) ||| ((b5 >>> 6) &&& 0x03) : Nat) : Int) }
    (WII_LIB_RC_SUCCESS, { d with interfaceCurrent := nunchuckMirror cur })
  else if d.target = WII_LIB_TARGET_DEVICE_MOTION_PLUS_PASS_NUNCHUCK then
    let b5 := b 5
    let cur := { d.interfaceCurrent with
      buttonC := bnot1 ((b5 >>> 3) &&& 1)
      buttonZL := bnot1 ((b5 >>> 2) &&& 1)
      analogLeftX := ((b 0 : Nat) : Int)
      analogLeftY := ((b 1 : Nat) : Int)
      accelX := (((b 2 <<< 2) ||| (((b5 >>> 4) &&& 0x01) <<< 1) : Nat) : Int)
      accelY := (((b 3 <<< 2) ||| (((b5 >>> 5) &&& 0x01) <<< 1) : Nat) : Int)
      accelZ := (((((b 4 >>> 1) &&& 0xFE) <<< 2) ||| (((b5 >>> 6) &&& 0x03) <<< 1) : Nat) : Int) }
    (WII_LIB_RC_SUCCESS, { d with interfaceCurrent := nunchuckMirror cur })
  else
    (WII_LIB_RC_TARGET_ID_MISMATCH, d)

/-- Embedding of `WiiClassic_ProcessStatusParam`, normal layout
(`WiiClassic_StatusNormal`): byte 0 is `analogLeftX` bits 0-5 and
`analogRightXHigh` bits 6-7; byte 1 is `analogLeftY` bits 0-5 and
`analogRightXMid` bits 6-7; byte 2 is `analogRightY` bits 0-4,
`leftTriggerHigh` bits 5-6, `analogRightXLow` bit 7; byte 3 is
`rightTrigger` bits 0-4 and `leftTriggerLow` bits 5-7; bytes 4-5 carry the
button bits in the order given in the header. -/
def classicDecodeNormal (d : WiiLib_Device) : WiiLib_Interface :=
  let b := fun i => d.dataCurrent.getD i 0
  let b4 := b 4
  let b5 := b 5
  { d.interfaceCurrent with
    buttonA := bnot1 ((b5 >>> 4) &&& 1)
    buttonB := bnot1 ((b5 >>> 6) &&& 1)
    buttonX := bnot1 ((b5 >>> 3) &&& 1)
    buttonY := bnot1 ((b5 >>> 5) &&& 1)
    buttonZL := bnot1 ((b5 >>> 7) &&& 1)
    buttonZR := bnot1 ((b5 >>> 2) &&& 1)
    buttonMinus := bnot1 ((b4 >>> 4) &&& 1)
    buttonHome := bnot1 ((b4 >>> 3) &&& 1)
    buttonPlus := bnot1 ((b4 >>> 2) &&& 1)
    dpadLeft := bnot1 ((b5 >>> 1) &&& 1)
    dpadUp := bnot1 (b5 &&& 1)
    dpadRight := bnot1 ((b4 >>> 7) &&& 1)
    dpadDown := bnot1 ((b4 >>> 6) &&& 1)
    buttonLeftTrigger := bnot1 ((b4 >>> 5) &&& 1)
    buttonRightTrigger := bnot1 ((b4 >>> 1) &&& 1)
    triggerLeft := (((((b 2 >>> 5) &&& 0x03) <<< 3) ||| ((b 3 >>> 5) &&& 0x07) : Nat) : Int)
    triggerRight := ((b 3 &&& 0x1F : Nat) : Int)
    analogLeftX := ((b 0 &&& 0x3F : Nat) : Int)
    analogLeftY := ((b 1 &&& 0x3F : Nat) : Int)
    analogRightX := (((((b 0 >>> 6) &&& 0x03) <<< 3) ||| (((b 1 >>> 6) &&& 0x03) <<< 1)
      ||| ((b 2 >>> 7) &&& 0x01) : Nat) : Int)
    analogRightY := ((b 2 &&& 0x1F : Nat) : Int) }

/-- Embedding of `WiiClassic_ProcessStatusParam`, pass-through layout
(`WiiClassic_StatusPassThrough`): byte 0 carries `dpadUp` in bit 0 and
`analogLeftX` in bits 1-5, byte 1 carries `dpadLeft` in bit 0 and
`analogLeftY` in bits 1-5, byte 5 has two reserved low bits; the C code
additionally masks the 5-bit analog-left fields with `0x3E`. -/
def classicDecodePassThrough (d : WiiLib_Device) : WiiLib_Interface :=
  let b := fun i => d.dataCurrent.getD i 0
  let b4 := b 4
  let b5 := b 5
  { d.interfaceCurrent with
    buttonA := bnot1 ((b5 >>> 4) &&& 1)
    buttonB := bnot1 ((b5 >>> 6) &&& 1)
    buttonX := bnot1 ((b5 >>> 3) &&& 1)
    buttonY := bnot1 ((b5 >>> 5) &&& 1)
    buttonZL := bnot1 ((b5 >>> 7) &&& 1)
    buttonZR := bnot1 ((b5 >>> 2) &&& 1)
    buttonMinus := bnot1 ((b4 >>> 4) &&& 1)
    buttonHome := bnot1 ((b4 >>> 3) &&& 1)
    buttonPlus := bnot1 ((b4 >>> 2) &&& 1)
    dpadLeft := bnot1 (b 1 &&& 1)
    dpadUp := bnot1 (b 0 &&& 1)
    dpadRight := bnot1 ((b4 >>> 7) &&& 1)
    dpadDown := bnot1 ((b4 >>> 6) &&& 1)
    buttonLeftTrigger := bnot1 ((b4 >>> 5) &&& 1)
    buttonRightTrigger := bnot1 ((b4 >>> 1) &&& 1)
    triggerLeft := (((((b 2 >>> 5) &&& 0x03) <<< 3) ||| ((b 3 >>> 5) &&& 0x07) : Nat) : Int)
    triggerRight := ((b 3 &&& 0x1F : Nat) : Int)
    analogLeftX := ((((b 0 >>> 1) &&& 0x1F) &&& 0x3E : Nat) : Int)
    analogLeftY := ((((b 1 >>> 1) &&& 0x1F) &&& 0x3E : Nat) : Int)
    analogRightX := (((((b 0 >>> 6) &&& 0x03) <<< 3) ||| (((b 1 >>> 6) &&& 0x03) <<< 1)
      ||| ((b 2 >>> 7) &&& 0x01) : Nat) : Int)
    analogRightY := ((b 2 &&& 0x1F : Nat) : Int) }

/-- Embedding of `WiiClassic_ProcessStatusParam` (dispatch and default arm). -/
def WiiClassic_ProcessStatusParam (d : WiiLib_Device) : Int × WiiLib_Device :=
  if d.target = WII_LIB_TARGET_DEVICE_CLASSIC_CONTROLLER then
    (WII_LIB_RC_SUCCESS, { d with interfaceCurrent := classicDecodeNormal d })
  else if d.target = WII_LIB_TARGET_DEVICE_MOTION_PLUS_PASS_CLASSIC then
    (WII_LIB_RC_SUCCESS, { d with interfaceCurrent := classicDecodePassThrough d })
  else
    (WII_LIB_RC_TARGET_ID_MISMATCH, d)

/-! ## Relative tracking (`WiiLib_UpdateInterfaceTracking`) -/

/-- The relative-position block of `WiiLib_UpdateInterfaceTracking`.  The C
code first copies `WII_LIB_MAX_PAYLOAD_SIZE` (20) bytes of `interfaceHome`
into `interfaceRelative` — exactly the sixteen button bytes, the two trigger
bytes and `analogLeftX` — and then overwrites every analog member with
`current − home`, so the net effect is: button flags mirror home, every
analog axis holds the (truncated) difference. -/
def relCalc (d : WiiLib_Device) : WiiLib_Device :=
  let cur := d.interfaceCurrent
  let home := d.interfaceHome
  { d with interfaceRelative :=
    { buttonA := home.buttonA
      buttonB := home.buttonB
      buttonC := home.buttonC
      buttonX := home.buttonX
      buttonY := home.buttonY
      buttonZL := home.buttonZL
      buttonZR := home.buttonZR
      buttonMinus := home.buttonMinus
      buttonHome := home.buttonHome
      buttonPlus := home.buttonPlus
      dpadLeft := home.dpadLeft
      dpadUp := home.dpadUp
      dpadRight := home.dpadRight
      dpadDown := home.dpadDown
      buttonLeftTrigger := home.buttonLeftTrigger
      buttonRightTrigger := home.buttonRightTrigger
      triggerLeft := wrap8 (cur.triggerLeft - home.triggerLeft)
      triggerRight := wrap8 (cur.triggerRight - home.triggerRight)
      analogLeftX := wrap16 (cur.analogLeftX - home.analogLeftX)
      analogLeftY := wrap16 (cur.analogLeftY - home.analogLeftY)
      analogRightX := wrap16 (cur.analogRightX - home.analogRightX)
      analogRightY := wrap16 (cur.analogRightY - home.analogRightY)
      accelX := wrap16 (cur.accelX - home.accelX)
      accelY := wrap16 (cur.accelY - home.accelY)
      accelZ := wrap16 (cur.accelZ - home.accelZ)
      gyroX := wrap16 (cur.gyroX - home.gyroX)
      gyroY := wrap16 (cur.gyroY - home.gyroY)
      gyroZ := wrap16 (cur.gyroZ - home.gyroZ) } }

/-- Tail of `WiiLib_UpdateInterfaceTracking` after a decoder arm assigned
`returnCode`: recompute the relative snapshot when the decode succeeded and
relative positioning is enabled. -/
def postDecode (p : Int × WiiLib_Device) : Option Int × WiiLib_Device :=
  if p.1 = WII_LIB_RC_SUCCESS ∧ p.2.calculateRelativePosition ≠ 0 then
    (some p.1, relCalc p.2)
  else
    (some p.1, p.2)

/-- Embedding of `WiiLib_UpdateInterfaceTracking`.  On the
`WII_LIB_TARGET_DEVICE_MOTION_PLUS` arm the C function never assigns its
local `returnCode` (the arm is a development stub) and then returns it, so the
return value is indeterminate; this is modelled as `none`, and the
relative-position block (guarded by `returnCode == WII_LIB_RC_SUCCESS`) is
modelled as not taken.  The default arm returns before that block. -/
def WiiLib_UpdateInterfaceTracking (d : WiiLib_Device) : Option Int × WiiLib_Device :=
  if d.target = WII_LIB_TARGET_DEVICE_NUNCHUCK ∨
      d.target = WII_LIB_TARGET_DEVICE_MOTION_PLUS_PASS_NUNCHUCK then
    postDecode (WiiNunchuck_ProcessStatusParam d)
  else if d.target = WII_LIB_TARGET_DEVICE_CLASSIC_CONTROLLER ∨
      d.target = WII_LIB_TARGET_DEVICE_MOTION_PLUS_PASS_CLASSIC then
    postDecode (WiiClassic_ProcessStatusParam d)
  else if d.target = WII_LIB_TARGET_DEVICE_MOTION_PLUS then
    (none, d)
  else
    (some WII_LIB_RC_UNSUPPORTED_DEVICE, d)

/-! ## Configuration and parameter queries (`wii_lib.c`) -/

/-- Embedding of `WiiLib_ConfigureDevice`: one `[0x40, 0x00]` write when the
device is left encrypted, otherwise the two clear-text writes `[0xF0, 0x55]`
then `[0xFB, 0x00]`, aborting with an I2C error as soon as a transmit fails.
The device structure itself is never modified. -/
def WiiLib_ConfigureDevice (e : Env) (d : WiiLib_Device) : Int × Env :=
  if d.dataEncrypted ≠ 0 then
    match e.trans (BusOp.transmit [0x40, 0x00]) with
    | (I2CResult.ok _, e1) => (WII_LIB_RC_SUCCESS, e1)
    | (I2CResult.err, e1) => (WII_LIB_RC_I2C_ERROR, e1)
  else
    match e.trans (BusOp.transmit [0xF0, 0x55]) with
    | (I2CResult.ok _, e1) =>
      match e1.trans (BusOp.transmit [0xFB, 0x00]) with
      | (I2CResult.ok _, e2) => (WII_LIB_RC_SUCCESS, e2)
      | (I2CResult.err, e2) => (WII_LIB_RC_I2C_ERROR, e2)
    | (I2CResult.err, e1) => (WII_LIB_RC_I2C_ERROR, e1)

/-- Response length chosen by the parameter switch of
`WiiLib_QueryParameter`; `none` models the default arm
(`WII_LIB_RC_UNKOWN_PARAMETER`). -/
def paramLenOut (param : Nat) : Option Nat :=
  if param = WII_LIB_PARAM_STATUS ∨ param = WII_LIB_PARAM_DEVICE_TYPE then
    some WII_LIB_PARAM_RESPONSE_LEN_DEFAULT
  else if param = WII_LIB_PARAM_RAW_DATA then
    some WII_LIB_PARAM_RESPONSE_LEN_EXTENDED
  else
    none

/-- Bus state right before the `I2C_TxRx` call inside
`WiiLib_QueryParameter`: for a STATUS query on a Classic Controller target
the source first re-issues the configuration writes (ignoring their result
and leaving the device untouched). -/
def queryEnvPreTxRx (e : Env) (d : WiiLib_Device) (param : Nat) : Env :=
  if param = WII_LIB_PARAM_STATUS ∧
      (d.target = WII_LIB_TARGET_DEVICE_CLASSIC_CONTROLLER ∨
       d.target = WII_LIB_TARGET_DEVICE_MOTION_PLUS_PASS_CLASSIC) then
    (WiiLib_ConfigureDevice e d).2
  else
    e

/-- Failure-counter increment `++device->failedParamQueryCount` on the
`uint8_t` field. -/
def incFail (d : WiiLib_Device) : WiiLib_Device :=
  { d with failedParamQueryCount := (d.failedParamQueryCount + 1) % 256 }

/-- Device state after `WiiLib_QueryParameter` has accepted a payload: the
receive buffer (descrambled in its first `WII_LIB_ID_LENGTH` bytes when the
link is still encrypted) is committed to `dataCurrent` and the failure
counter is cleared. -/
def commitPayload (d : WiiLib_Device) (lenOut : Nat) (rx : List Nat) : WiiLib_Device :=
  { d with
    dataCurrent :=
      if d.dataEncrypted ≠ 0 then WiiLib_Decrypt (pad20 (rx.take lenOut)) WII_LIB_ID_LENGTH
      else pad20 (rx.take lenOut)
    failedParamQueryCount := 0 }

/-- Tail of `WiiLib_QueryParameter` after a successful `I2C_TxRx`: validate
the receive buffer, commit it (see `commitPayload`), and dispatch to the
status decoder when the query was for STATUS.  (The branch returning
`WII_LIB_RC_UNABLE_TO_DECRYPT_DATA_RECEIVED` is dead code because
`WiiLib_Decrypt` always returns success.) -/
def queryAfterTxRx (d : WiiLib_Device) (param : Nat) (lenOut : Nat) (rx : List Nat)
    (e : Env) : Option Int × WiiLib_Device × Env :=
  if WiiLib_ValidateDataReceived (pad20 (rx.take lenOut)) lenOut = false then
    (some WII_LIB_RC_DATA_RECEIVED_IS_INVALID,
      incFail { d with dataCurrent := List.replicate WII_LIB_MAX_PAYLOAD_SIZE 0 }, e)
  else if param = WII_LIB_PARAM_STATUS then
    match WiiLib_UpdateInterfaceTracking (commitPayload d lenOut rx) with
    | (rc, d2) => (rc, d2, e)
  else
    (some WII_LIB_RC_SUCCESS, commitPayload d lenOut rx, e)

/-- Outcome branch of the `I2C_TxRx` call in `WiiLib_QueryParameter`: a bus
failure increments the failure counter and returns the I2C error, a
successful read goes on to payload processing. -/
def queryTxRxStep (d : WiiLib_Device) (param lenOut : Nat) :
    I2CResult × Env → Option Int × WiiLib_Device × Env
  | (I2CResult.err, e2) => (some WII_LIB_RC_I2C_ERROR, incFail d, e2)
  | (I2CResult.ok rx, e2) => queryAfterTxRx d param lenOut rx e2

/-- Embedding of `WiiLib_QueryParameter`: reject disabled devices before any
bus traffic, validate the parameter and pick the response length, run the
optional Classic-Controller reconfiguration, perform the write-then-read
transaction, and process the payload. -/
def WiiLib_QueryParameter (e : Env) (d : WiiLib_Device) (param : Nat) :
    Option Int × WiiLib_Device × Env :=
  if d.status = WII_LIB_DEVICE_STATUS_DISABLED then
    (some WII_LIB_RC_DEVICE_DISABLED, d, e)
  else
    match paramLenOut param with
    | none => (some WII_LIB_RC_UNKOWN_PARAMETER, d, e)
    | some lenOut =>
      queryTxRxStep d param lenOut
        ((queryEnvPreTxRx e d param).trans (BusOp.txrx [param] lenOut))

/-- Embedding of `WiiLib_PollStatus`. -/
def WiiLib_PollStatus (e : Env) (d : WiiLib_Device) : Option Int × WiiLib_Device × Env :=
  WiiLib_QueryParameter e d WII_LIB_PARAM_STATUS

/-! ## Home position (`WiiLib_SetNewHomePosition`) -/

/-- Field-level effect of the copy in `WiiLib_SetNewHomePosition`.  The source
executes `memcpy(&device->interfaceHome, &device->interfaceCurrent,
sizeof(WiiLib_Device))`: the length is the size of the whole device structure
(176 bytes under the layout in `sizeof_WiiLib_Device` below), not the 38-byte
`WiiLib_Interface`.  The regions overlap (destination 38 bytes above the
source), which is undefined behaviour for `memcpy`; this model fixes the
canonical forward byte-by-byte copy, under which the 38-byte pattern at
`interfaceCurrent` is tiled upward: `interfaceHome` and `interfaceRelative`
both become copies of `interfaceCurrent`, `failedParamQueryCount` receives
the byte of `interfaceCurrent.buttonA`, and the little-endian `int` status
field receives the four bytes of `buttonY`, `buttonZL`, `buttonZR`,
`buttonMinus` (interface offsets 4..7, since the counter sits 76 = 2 x 38
bytes past `interfaceHome` and status sits at 80 after padding).  The copy
also runs 64 bytes past the end of the structure; that out-of-bounds write
is outside this model.  The byte-exact statement is proved separately on
`WiiLib_SetNewHomePosition_copyBytes`. -/
def setHomeCopy (d : WiiLib_Device) : WiiLib_Device :=
  let cur := d.interfaceCurrent
  { d with
    interfaceHome := cur
    interfaceRelative := cur
    failedParamQueryCount := cur.buttonA % 256
    status := ((cur.buttonY % 256 : Nat) : Int) + 256 * ((cur.buttonZL % 256 : Nat) : Int)
      + 65536 * ((cur.buttonZR % 256 : Nat) : Int)
      + 16777216 * ((cur.buttonMinus % 256 : Nat) : Int) }

/-- Embedding of `WiiLib_SetNewHomePosition`: refuse when relative tracking is
disabled, poll status, and on success perform the (oversized) snapshot copy. -/
def WiiLib_SetNewHomePosition (e : Env) (d : WiiLib_Device) :
    Option Int × WiiLib_Device × Env :=
  if d.calculateRelativePosition = 0 then
    (some WII_LIB_RC_RELATIVE_POSITION_FEATURE_DISABLED, d, e)
  else
    match WiiLib_PollStatus e d with
    | (rc, d1, e1) =>
      if rc = some WII_LIB_RC_SUCCESS then (rc, setHomeCopy d1, e1) else (rc, d1, e1)

/-! ## Connection lifecycle (`wii_lib.c`) -/

/-- Identity table of `WiiLib_DetermineDeviceType`: compare the first
`WII_LIB_ID_LENGTH` bytes of the committed payload against the known
signatures. -/
def matchDeviceId (payload : List Nat) : Int :=
  let id6 := payload.take WII_LIB_ID_LENGTH
  if id6 = WII_LIB_ID_NUNCHUCK then WII_LIB_TARGET_DEVICE_NUNCHUCK
  else if id6 = WII_LIB_ID_CLASSIC_CONTROLLER then WII_LIB_TARGET_DEVICE_CLASSIC_CONTROLLER
  else if id6 = WII_LIB_ID_WII_MOTION_PLUS then WII_LIB_TARGET_DEVICE_MOTION_PLUS
  else if id6 = WII_LIB_ID_WII_MOTION_PLUS_PASS_NUNCHUCK then
    WII_LIB_TARGET_DEVICE_MOTION_PLUS_PASS_NUNCHUCK
  else if id6 = WII_LIB_ID_WII_MOTION_PLUS_PASS_CLASSIC then
    WII_LIB_TARGET_DEVICE_MOTION_PLUS_PASS_CLASSIC
  else WII_LIB_TARGET_DEVICE_UNSUPPORTED

/-- Embedding of `WiiLib_DetermineDeviceType`: query `DEVICE_TYPE` and map
the returned identity bytes to a target constant; any query failure yields
`WII_LIB_TARGET_DEVICE_UNKNOWN`.  The source compares the query result
against `I2C_RC_SUCCESS`, which coincides with `WII_LIB_RC_SUCCESS`. -/
def WiiLib_DetermineDeviceType (e : Env) (d : WiiLib_Device) : Int × WiiLib_Device × Env :=
  match WiiLib_QueryParameter e d WII_LIB_PARAM_DEVICE_TYPE with
  | (rc, d1, e1) =>
    if rc = some I2C_RC_SUCCESS then (matchDeviceId d1.dataCurrent, d1, e1)
    else (WII_LIB_TARGET_DEVICE_UNKNOWN, d1, e1)

/-- Embedding of `WiiLib_ConnectToTarget`: configure, read and check the
identity (recording the observed kind and failing with
`WII_LIB_RC_TARGET_ID_MISMATCH` when it differs from a non-Unknown expected
kind), then capture the home position. -/
def WiiLib_ConnectToTarget (e : Env) (d : WiiLib_Device) :
    Option Int × WiiLib_Device × Env :=
  match WiiLib_ConfigureDevice e d with
  | (rcCfg, e1) =>
    if rcCfg ≠ WII_LIB_RC_SUCCESS then
      (some WII_LIB_RC_TARGET_NOT_INITIALIZED, d, e1)
    else
      match WiiLib_DetermineDeviceType e1 d with
      | (tv, d1, e2) =>
        if tv ≠ d1.target ∧ d1.target ≠ WII_LIB_TARGET_DEVICE_UNKNOWN then
          (some WII_LIB_RC_TARGET_ID_MISMATCH, { d1 with target := tv }, e2)
        else
          WiiLib_SetNewHomePosition e2 d1

/-- The do-while connection loop of `WiiLib_DoMaintenance`, with the
remaining-attempt counter as fuel (`WII_LIB_MAX_CONNECTION_ATTEMPTS`
iterations in total).  Success and identity mismatch both terminate the loop
with the device marked active and an overall success code; the inter-attempt
delay is not modelled. -/
def connectAttempts : Nat → Env → WiiLib_Device → Option Int × WiiLib_Device × Env
  | 0, e, d => (some WII_LIB_RC_TARGET_NOT_INITIALIZED, d, e)
  | n + 1, e, d =>
    match WiiLib_ConnectToTarget e d with
    | (rc, d1, e1) =>
      if rc = some WII_LIB_RC_SUCCESS ∨ rc = some WII_LIB_RC_TARGET_ID_MISMATCH then
        (some WII_LIB_RC_SUCCESS, { d1 with status := WII_LIB_DEVICE_STATUS_ACTIVE }, e1)
      else
        connectAttempts n e1 d1

/-- Embedding of `WiiLib_DoMaintenance`: the guard order follows the source —
undefined-structure sentinel, disable threshold, reconfigure threshold,
not-initialized connection loop, then the presume-healthy default that marks
the device active. -/
def WiiLib_DoMaintenance (e : Env) (d : WiiLib_Device) :
    Option Int × WiiLib_Device × Env :=
  if d.status = WII_LIB_DEVICE_STATUS_STRUCTURE_NOT_DEFINED then
    (some WII_LIB_RC_TARGET_STRUCTURE_NOT_DEFINED, d, e)
  else if d.failedParamQueryCount > WII_LIB_MAX_FAILURES_BEFORE_DISABLING then
    (some WII_LIB_RC_DEVICE_DISABLED, { d with status := WII_LIB_DEVICE_STATUS_DISABLED }, e)
  else if d.failedParamQueryCount > WII_LIB_MAX_FAILURES_BEFORE_RECONFIGURING then
    let d1 := { d with status := WII_LIB_DEVICE_STATUS_CONFIGURING }
    match WiiLib_ConfigureDevice e d1 with
    | (rc, e1) => (some rc, d1, e1)
  else if d.status = WII_LIB_DEVICE_STATUS_NOT_INITIALIZED then
    connectAttempts WII_LIB_MAX_CONNECTION_ATTEMPTS e d
  else
    (some WII_LIB_RC_SUCCESS, { d with status := WII_LIB_DEVICE_STATUS_ACTIVE }, e)

/-! ## Byte-level model of the home-position copy

`WiiLib_SetNewHomePosition` executes

  `memcpy((void *)&device->interfaceHome, (void *)&device->interfaceCurrent, sizeof(WiiLib_Device));`

so the copy length is the size of the whole `WiiLib_Device`, not of one
`WiiLib_Interface`.  To state what that does we lay the device out as bytes
(32-bit target, little endian, 4-byte enums and natural alignment, as for
the PIC32/XC32 toolchain this source targets):

* `I2C_Port` = 4 enum/uint32 members = 16 bytes; `I2C_Device` = port 16 +
  mode 4 + addr 2 + pad 2 + addrLength 4 = 28 bytes;
* `WiiLib_Interface` = 16 `uint8_t` + 2 `int8_t` + 10 `int16_t` = 38 bytes;
* `WiiLib_Device` offsets: `i2c` 0, `target` 28, `dataEncrypted` 32,
  `calculateRelativePosition` 33, `dataCurrent` 34, `interfaceCurrent` 54,
  `interfaceHome` 92, `interfaceRelative` 130, `failedParamQueryCount` 168,
  padding 169..171, `status` 172, total size 176.

Memory is a list of bytes indexed from the device base (long enough to also
expose the copy's writes beyond the end of the structure).  Because source
and destination overlap, `memcpy` is undefined behaviour; the model uses the
canonical forward byte-by-byte copy. -/

def sizeof_WiiLib_Interface : Nat := 38

def sizeof_WiiLib_Device : Nat := 176

def off_interfaceCurrent : Nat := 54

def off_interfaceHome : Nat := 92

def off_interfaceRelative : Nat := 130

def off_failedParamQueryCount : Nat := 168

def off_status : Nat := 172

/-- Forward byte-by-byte `memcpy(dst, src, n)`: byte `i` is copied after
bytes `0..i-1`, reading the partially updated memory (the behaviour of a
naive ascending copy on overlapping regions). -/
def memcpyFwd (dst src n : Nat) (m : List Nat) : List Nat :=
  (List.range n).foldl (fun mem i => mem.set (dst + i) (mem.getD (src + i) 0)) m

/-- Byte-level effect of the copy statement in `WiiLib_SetNewHomePosition`:
copy `sizeof(WiiLib_Device)` bytes from `interfaceCurrent` to
`interfaceHome`, exactly as the source line does. -/
def WiiLib_SetNewHomePosition_copyBytes (m : List Nat) : List Nat :=
  memcpyFwd off_interfaceHome off_interfaceCurrent sizeof_WiiLib_Device m

/-- Concrete device memory for exercising the copy: byte `a` holds
`(a + 1) % 256`, so every field region has distinct content; 268 bytes so
that all writes of the oversized copy stay in view. -/
def memC1 : List Nat := (List.range 268).map (fun a => (a + 1) % 256)

/-! ## Shared concrete fixtures -/

/-- All-zero interface snapshot, used to build concrete devices. -/
def ifaceZero : WiiLib_Interface :=
  { buttonA := 0, buttonB := 0, buttonC := 0, buttonX := 0, buttonY := 0
    buttonZL := 0, buttonZR := 0, buttonMinus := 0, buttonHome := 0, buttonPlus := 0
    dpadLeft := 0, dpadUp := 0, dpadRight := 0, dpadDown := 0
    buttonLeftTrigger := 0, buttonRightTrigger := 0
    triggerLeft := 0, triggerRight := 0
    analogLeftX := 0, analogLeftY := 0, analogRightX := 0, analogRightY := 0
    accelX := 0, accelY := 0, accelZ := 0
    gyroX := 0, gyroY := 0, gyroZ := 0 }

/-- Base concrete device: an active, clear-text nunchuck with relative
tracking enabled and a clean failure counter. -/
def devBase : WiiLib_Device :=
  { target := WII_LIB_TARGET_DEVICE_NUNCHUCK
    dataEncrypted := 0
    calculateRelativePosition := 1
    dataCurrent := List.replicate 20 0
    interfaceCurrent := ifaceZero
    interfaceHome := ifaceZero
    interfaceRelative := ifaceZero
    failedParamQueryCount := 0
    status := WII_LIB_DEVICE_STATUS_ACTIVE }

/-- Empty bus environment. -/
def envEmpty : Env := { script := [], ops := [] }

/-- Active encrypted-mode device whose failure counter has crossed the
reconfigure threshold. -/
def devC2 : WiiLib_Device := { devBase with failedParamQueryCount := 4, dataEncrypted := 1 }

/-- Script for one successful encrypted-mode configuration write. -/
def envC2 : Env := { script := [I2CResult.ok []], ops := [] }

/-- Active clear-text device past the reconfigure threshold. -/
def devC2w : WiiLib_Device := { devBase with failedParamQueryCount := 4 }

/-- Script for the two successful clear-text configuration writes. -/
def envC2w : Env := { script := [I2CResult.ok [], I2CResult.ok []], ops := [] }

/-- Device whose failure counter has crossed the disable threshold. -/
def devC2d : WiiLib_Device := { devBase with failedParamQueryCount := 21 }

/-- Uninitialized nunchuck-expecting device about to run the connection loop. -/
def devC3 : WiiLib_Device := { devBase with status := WII_LIB_DEVICE_STATUS_NOT_INITIALIZED }

/-- Script for one connection attempt: both clear-text configuration writes
succeed and the identity read returns the Classic Controller signature, so
the observed kind differs from the expected Nunchuck. -/
def envC3 : Env :=
  { script := [I2CResult.ok [], I2CResult.ok [], I2CResult.ok WII_LIB_ID_CLASSIC_CONTROLLER]
    ops := [] }

/-- Observed kind read during the mismatching connection attempt. -/
def tvC3 : Int := (WiiLib_DetermineDeviceType (WiiLib_ConfigureDevice envC3 devC3).2 devC3).1

/-- Device state right after the identity read of the mismatching attempt. -/
def devC3det : WiiLib_Device :=
  (WiiLib_DetermineDeviceType (WiiLib_ConfigureDevice envC3 devC3).2 devC3).2.1

/-- Bus state right after the identity read of the mismatching attempt. -/
def envC3det : Env :=
  (WiiLib_DetermineDeviceType (WiiLib_ConfigureDevice envC3 devC3).2 devC3).2.2

/-- Device state returned by the mismatching connection attempt. -/
def devC3conn : WiiLib_Device := (WiiLib_ConnectToTarget envC3 devC3).2.1

/-- Bus state returned by the mismatching connection attempt. -/
def envC3conn : Env := (WiiLib_ConnectToTarget envC3 devC3).2.2

/-- Device whose home snapshot was captured with `analogLeftX = 100`
(scenario S6 of the specification). -/
def devC4 : WiiLib_Device :=
  { devBase with interfaceHome := { ifaceZero with analogLeftX := 100 } }

/-- Script for one STATUS poll whose payload reads `analogLeftX = 130` with
neutral accelerometer bytes and released buttons. -/
def envC4 : Env :=
  { script := [I2CResult.ok [130, 0x80, 0x80, 0x80, 0x80, 0x03]], ops := [] }

/-- Device state after the S6 status poll. -/
def devC4res : WiiLib_Device :=
  (WiiLib_QueryParameter envC4 devC4 WII_LIB_PARAM_STATUS).2.1

/-- Bus state after the S6 status poll. -/
def envC4res : Env := (WiiLib_QueryParameter envC4 devC4 WII_LIB_PARAM_STATUS).2.2

/-- Script for one successful STATUS poll with an ordinary payload. -/
def envC5 : Env := { script := [I2CResult.ok [1, 2, 3, 4, 5, 6]], ops := [] }

/-- Disabled device. -/
def devC6 : WiiLib_Device := { devBase with status := WII_LIB_DEVICE_STATUS_DISABLED }

/-- Bus environment holding a response the disabled device must never read. -/
def envC6 : Env := { script := [I2CResult.ok [1, 2, 3, 4, 5, 6]], ops := [] }

/-- Nunchuck device holding the S1 idle-poll payload
`[0x7F, 0x82, 0x80, 0x80, 0x80, 0xFC]`. -/
def devC7 : WiiLib_Device :=
  { devBase with dataCurrent := pad20 [0x7F, 0x82, 0x80, 0x80, 0x80, 0xFC] }

/-- A 20-byte payload consisting of sixteen `0xFF` bytes followed by four
zero bytes. -/
def rxC8 : List Nat := List.replicate 16 0xFF ++ [0, 0, 0, 0]

/-- Script delivering `rxC8` for an extended-length query. -/
def envC8 : Env := { script := [I2CResult.ok rxC8], ops := [] }

/-- Device with a nonzero failure counter, to make both a reset and an
increment observable. -/
def devC8 : WiiLib_Device := { devBase with failedParamQueryCount := 5 }

/-- Script delivering twenty `0xFF` bytes (the not-ready sentinel) for an
extended-length query. -/
def envC8w : Env := { script := [I2CResult.ok (List.replicate 20 0xFF)], ops := [] }

/-- Motion Plus target (the decoder-less mode). -/
def devC10 : WiiLib_Device := { devBase with target := WII_LIB_TARGET_DEVICE_MOTION_PLUS }

/-- Script for one STATUS poll of the Motion Plus device. -/
def envC10 : Env := { script := [I2CResult.ok [1, 2, 3, 4, 5, 6]], ops := [] }

/-! ## Helper lemmas -/

theorem wrap16_eq_self (z : Int) (h : inInt16 z) : wrap16 z = z := by
  rcases h with ⟨h1, h2⟩
  unfold wrap16
  omega

theorem wrap8_eq_self (z : Int) (h : inInt8 z) : wrap8 z = z := by
  rcases h with ⟨h1, h2⟩
  unfold wrap8
  omega

theorem nunchuck_count_eq (d : WiiLib_Device) :
    (WiiNunchuck_ProcessStatusParam d).2.failedParamQueryCount = d.failedParamQueryCount := by
  unfold WiiNunchuck_ProcessStatusParam
  split_ifs <;> rfl

theorem classic_count_eq (d : WiiLib_Device) :
    (WiiClassic_ProcessStatusParam d).2.failedParamQueryCount = d.failedParamQueryCount := by
  unfold WiiClassic_ProcessStatusParam
  split_ifs <;> rfl

theorem relCalc_count_eq (d : WiiLib_Device) :
    (relCalc d).failedParamQueryCount = d.failedParamQueryCount := rfl

theorem postDecode_count_eq (p : Int × WiiLib_Device) :
    (postDecode p).2.failedParamQueryCount = p.2.failedParamQueryCount := by
  unfold postDecode
  split_ifs <;> simp [relCalc_count_eq]

theorem update_count_eq (d : WiiLib_Device) :
    (WiiLib_UpdateInterfaceTracking d).2.failedParamQueryCount = d.failedParamQueryCount := by
  unfold WiiLib_UpdateInterfaceTracking
  split_ifs <;>
    simp [postDecode_count_eq, nunchuck_count_eq, classic_count_eq]

theorem setStatus_self (d : WiiLib_Device) (s : Int) (h : d.status = s) :
    { d with status := s } = d := by
  cases d
  simp only [WiiLib_Device.mk.injEq, and_true, true_and]
  simp only at h
  omega

theorem nunchuck_calcRel_eq (d : WiiLib_Device) :
    (WiiNunchuck_ProcessStatusParam d).2.calculateRelativePosition =
      d.calculateRelativePosition := by
  unfold WiiNunchuck_ProcessStatusParam
  split_ifs <;> rfl

theorem classic_calcRel_eq (d : WiiLib_Device) :
    (WiiClassic_ProcessStatusParam d).2.calculateRelativePosition =
      d.calculateRelativePosition := by
  unfold WiiClassic_ProcessStatusParam
  split_ifs <;> rfl

theorem postDecode_success (p : Int × WiiLib_Device) (d' : WiiLib_Device)
    (h : postDecode p = (some WII_LIB_RC_SUCCESS, d'))
    (hrel : p.2.calculateRelativePosition ≠ 0) : d' = relCalc p.2 := by
  unfold postDecode at h
  split_ifs at h with hc
  · injection h with h1 h2
    exact h2.symm
  · injection h with h1 h2
    injection h1 with h1
    exact absurd ⟨h1, hrel⟩ hc

theorem update_success_relCalc (d d' : WiiLib_Device)
    (h : WiiLib_UpdateInterfaceTracking d = (some WII_LIB_RC_SUCCESS, d'))
    (hrel : d.calculateRelativePosition ≠ 0) :
    ∃ dm : WiiLib_Device, d' = relCalc dm := by
  unfold WiiLib_UpdateInterfaceTracking at h
  split_ifs at h with h1 h2 h3
  · exact ⟨_, postDecode_success _ _ h (by rw [nunchuck_calcRel_eq]; exact hrel)⟩
  · exact ⟨_, postDecode_success _ _ h (by rw [classic_calcRel_eq]; exact hrel)⟩
  · injection h with ha hb
    exact Option.noConfusion ha
  · injection h with ha hb
    injection ha with ha
    exact absurd ha (by decide)

theorem update_motionplus (d : WiiLib_Device)
    (ht : d.target = WII_LIB_TARGET_DEVICE_MOTION_PLUS) :
    WiiLib_UpdateInterfaceTracking d = (none, d) := by
  unfold WiiLib_UpdateInterfaceTracking
  rw [ht]
  rw [if_neg (by decide), if_neg (by decide), if_pos rfl]

theorem query_status_success_exists (e : Env) (d d' : WiiLib_Device) (e' : Env)
    (hq : WiiLib_QueryParameter e d WII_LIB_PARAM_STATUS = (some WII_LIB_RC_SUCCESS, d', e')) :
    ∃ lenOut rx,
      (commitPayload d lenOut rx).calculateRelativePosition = d.calculateRelativePosition ∧
      WiiLib_UpdateInterfaceTracking (commitPayload d lenOut rx) =
        (some WII_LIB_RC_SUCCESS, d') := by
  unfold WiiLib_QueryParameter at hq
  split_ifs at hq with hdis
  · exact absurd (Option.some.inj (congrArg Prod.fst hq)) (by decide)
  · rw [show paramLenOut WII_LIB_PARAM_STATUS = some WII_LIB_PARAM_RESPONSE_LEN_DEFAULT
      from rfl] at hq
    simp only at hq
    rcases hres : (queryEnvPreTxRx e d WII_LIB_PARAM_STATUS).trans
        (BusOp.txrx [WII_LIB_PARAM_STATUS] WII_LIB_PARAM_RESPONSE_LEN_DEFAULT) with ⟨res, e2⟩
    rw [hres] at hq
    cases res with
    | err =>
      simp only [queryTxRxStep] at hq
      exact absurd (Option.some.inj (congrArg Prod.fst hq)) (by decide)
    | ok rx =>
      simp only [queryTxRxStep] at hq
      unfold queryAfterTxRx at hq
      split_ifs at hq with hval hp
      · exact absurd (Option.some.inj (congrArg Prod.fst hq)) (by decide)
      · rcases hu : WiiLib_UpdateInterfaceTracking
            (commitPayload d WII_LIB_PARAM_RESPONSE_LEN_DEFAULT rx) with ⟨rcU, dU⟩
        rw [hu] at hq
        simp only at hq
        have h1 : rcU = some WII_LIB_RC_SUCCESS := congrArg Prod.fst hq
        have h2 : dU = d' := congrArg (fun p => p.2.1) hq
        exact ⟨WII_LIB_PARAM_RESPONSE_LEN_DEFAULT, rx, rfl, by rw [hu, h1, h2]⟩
      · exact absurd rfl hp

/-! ## Claims -/

set_option maxRecDepth 1000000

/-- C1 (code bug): the claim says a successful `set_home` only copies the
current interface snapshot into the home snapshot, leaving the relative
snapshot, the failure counter and the status field untouched.  The source
copy uses `sizeof(WiiLib_Device)` instead of `sizeof(WiiLib_Interface)`:
evaluated on the concrete device memory `memC1`, the copy does fill the home
snapshot from the current one, but it also rewrites the first byte of the
relative snapshot, the failure counter, the status field, and even the byte
64 past the end of the structure (offset 267). -/
theorem C1_homeCopy_overflows_into_relative_and_status :
    (WiiLib_SetNewHomePosition_copyBytes memC1).getD off_interfaceHome 0 =
      memC1.getD off_interfaceCurrent 0
  ∧ (WiiLib_SetNewHomePosition_copyBytes memC1).getD off_interfaceRelative 0 ≠
      memC1.getD off_interfaceRelative 0
  ∧ (WiiLib_SetNewHomePosition_copyBytes memC1).getD off_failedParamQueryCount 0 ≠
      memC1.getD off_failedParamQueryCount 0
  ∧ (WiiLib_SetNewHomePosition_copyBytes memC1).getD off_status 0 ≠
      memC1.getD off_status 0
  ∧ (WiiLib_SetNewHomePosition_copyBytes memC1).getD 267 0 ≠ memC1.getD 267 0 := by
  refine ⟨?_, ?_, ?_, ?_, ?_⟩ <;> decide

/-- C6: a query on a Disabled device returns `WII_LIB_RC_DEVICE_DISABLED`
with the device completely unchanged and the bus untouched (no operation
issued, script not consumed). -/
theorem C6_disabled_query_rejected_unchanged (e : Env) (d : WiiLib_Device) (param : Nat)
    (hd : d.status = WII_LIB_DEVICE_STATUS_DISABLED) :
    WiiLib_QueryParameter e d param = (some WII_LIB_RC_DEVICE_DISABLED, d, e) := by
  unfold WiiLib_QueryParameter
  rw [if_pos hd]

/-- C6 witness: concrete disabled device with a pending bus response that is
never read. -/
theorem C6_disabled_query_rejected_unchanged_witness :
    WiiLib_QueryParameter envC6 devC6 WII_LIB_PARAM_STATUS =
      (some WII_LIB_RC_DEVICE_DISABLED, devC6, envC6) :=
  C6_disabled_query_rejected_unchanged envC6 devC6 WII_LIB_PARAM_STATUS (by decide)

/-- C7 counterexample: on the S1 payload `[0x7F, 0x82, 0x80, 0x80, 0x80,
0xFC]` the decoder produces `accelX = accelY = 515`, not the claimed 512:
byte 5 is `0xFC`, whose bit pairs 2-3 and 4-5 (the accelX/accelY low bits)
are both `0b11 = 3`, so every accelerometer gets `(0x80 << 2) | 3`. -/
theorem C7_accel_low_bits_counterexample :
    (WiiNunchuck_ProcessStatusParam devC7).2.interfaceCurrent.accelX = 515
  ∧ (WiiNunchuck_ProcessStatusParam devC7).2.interfaceCurrent.accelY = 515
  ∧ ¬((WiiNunchuck_ProcessStatusParam devC7).2.interfaceCurrent.accelX = 512
      ∧ (WiiNunchuck_ProcessStatusParam devC7).2.interfaceCurrent.accelY = 512) := by
  refine ⟨by decide, by decide, ?_⟩
  intro h
  exact absurd h.1 (by decide)

/-- C7 (amended): decoding the payload `[0x7F, 0x82, 0x80, 0x80, 0x80, 0xFC]`
for a normal-mode Nunchuck yields `analogLeftX = 0x7F`, `analogLeftY = 0x82`,
`accelX = accelY = accelZ = 515`, `buttonC = buttonZL = 1` (active-low wire
bits inverted), and the mirror fields duplicate the left-hand values. -/
theorem C7_nunchuck_decode_amended :
    (WiiNunchuck_ProcessStatusParam devC7).1 = WII_LIB_RC_SUCCESS
  ∧ (WiiNunchuck_ProcessStatusParam devC7).2.interfaceCurrent.analogLeftX = 0x7F
  ∧ (WiiNunchuck_ProcessStatusParam devC7).2.interfaceCurrent.analogLeftY = 0x82
  ∧ (WiiNunchuck_ProcessStatusParam devC7).2.interfaceCurrent.accelX = 515
  ∧ (WiiNunchuck_ProcessStatusParam devC7).2.interfaceCurrent.accelY = 515
  ∧ (WiiNunchuck_ProcessStatusParam devC7).2.interfaceCurrent.accelZ = 515
  ∧ (WiiNunchuck_ProcessStatusParam devC7).2.interfaceCurrent.buttonC = 1
  ∧ (WiiNunchuck_ProcessStatusParam devC7).2.interfaceCurrent.buttonZL = 1
  ∧ (WiiNunchuck_ProcessStatusParam devC7).2.interfaceCurrent.buttonZR =
      (WiiNunchuck_ProcessStatusParam devC7).2.interfaceCurrent.buttonZL
  ∧ (WiiNunchuck_ProcessStatusParam devC7).2.interfaceCurrent.analogRightX =
      (WiiNunchuck_ProcessStatusParam devC7).2.interfaceCurrent.analogLeftX
  ∧ (WiiNunchuck_ProcessStatusParam devC7).2.interfaceCurrent.analogRightY =
      (WiiNunchuck_ProcessStatusParam devC7).2.interfaceCurrent.analogLeftY := by
  decide

/-- C9: the driver's descramble byte transform inverts the specification's
scramble transform on every byte value. -/
theorem C9_descramble_inverts_scramble (x : Nat) (hx : x < 256) :
    descrambleByte (scrambleByteSpec x) = x := by
  have h : ∀ y : Fin 256, descrambleByte (scrambleByteSpec y.val) = y.val := by decide
  exact h ⟨x, hx⟩

/-- C9 witness: the inverse relationship at the concrete byte `0xAB`. -/
theorem C9_descramble_inverts_scramble_witness :
    0xAB < 256 ∧ descrambleByte (scrambleByteSpec 0xAB) = 0xAB :=
  ⟨by decide, C9_descramble_inverts_scramble 0xAB (by decide)⟩

/-- C2 counterexample: an Active device with `failure_count = 4` (between the
thresholds) whose configuration write succeeds.  The maintenance call
returns success, but the device is left in Configuring — it does not stay
Active as the claim says. -/
theorem C2_reconfigure_leaves_configuring_counterexample :
    (WiiLib_DoMaintenance envC2 devC2).1 = some WII_LIB_RC_SUCCESS
  ∧ (WiiLib_DoMaintenance envC2 devC2).2.1.status = WII_LIB_DEVICE_STATUS_CONFIGURING
  ∧ (WiiLib_DoMaintenance envC2 devC2).2.1.status ≠ WII_LIB_DEVICE_STATUS_ACTIVE := by
  refine ⟨by decide, by decide, by decide⟩

/-- C2 (amended): maintenance thresholds as the code implements them.
An Active device with `failure_count ≤ 3` stays Active (with a success
return and no bus traffic); with `3 < failure_count ≤ 20` maintenance
re-issues the clear-text configuration writes and, when they succeed,
returns success with the device left in Configuring (not Active; it only
returns to Active on a later maintenance call after the counter is cleared);
with `failure_count > 20` the device is driven to Disabled and
`DeviceDisabled` is returned. -/
theorem C2_maintenance_thresholds_amended (d : WiiLib_Device) (e : Env) :
    (d.status = WII_LIB_DEVICE_STATUS_ACTIVE ∧
      d.failedParamQueryCount ≤ WII_LIB_MAX_FAILURES_BEFORE_RECONFIGURING →
      WiiLib_DoMaintenance e d = (some WII_LIB_RC_SUCCESS, d, e))
  ∧ (d.status ≠ WII_LIB_DEVICE_STATUS_STRUCTURE_NOT_DEFINED →
      WII_LIB_MAX_FAILURES_BEFORE_RECONFIGURING < d.failedParamQueryCount →
      d.failedParamQueryCount ≤ WII_LIB_MAX_FAILURES_BEFORE_DISABLING →
      d.dataEncrypted = 0 →
      ∀ r1 r2 rest, e.script = I2CResult.ok r1 :: I2CResult.ok r2 :: rest →
      WiiLib_DoMaintenance e d =
        (some WII_LIB_RC_SUCCESS, { d with status := WII_LIB_DEVICE_STATUS_CONFIGURING },
          { script := rest,
            ops := e.ops ++ [BusOp.transmit [0xF0, 0x55], BusOp.transmit [0xFB, 0x00]] }))
  ∧ (d.status ≠ WII_LIB_DEVICE_STATUS_STRUCTURE_NOT_DEFINED →
      WII_LIB_MAX_FAILURES_BEFORE_DISABLING < d.failedParamQueryCount →
      WiiLib_DoMaintenance e d =
        (some WII_LIB_RC_DEVICE_DISABLED, { d with status := WII_LIB_DEVICE_STATUS_DISABLED }, e)) := by
  refine ⟨?_, ?_, ?_⟩
  · rintro ⟨hs, hc⟩
    have h4 : d.status ≠ WII_LIB_DEVICE_STATUS_STRUCTURE_NOT_DEFINED := by
      rw [hs]; decide
    have h20 : ¬ (d.failedParamQueryCount > WII_LIB_MAX_FAILURES_BEFORE_DISABLING) := by
      unfold WII_LIB_MAX_FAILURES_BEFORE_RECONFIGURING at hc
      unfold WII_LIB_MAX_FAILURES_BEFORE_DISABLING
      omega
    have h3 : ¬ (d.failedParamQueryCount > WII_LIB_MAX_FAILURES_BEFORE_RECONFIGURING) := by
      omega
    have h0 : d.status ≠ WII_LIB_DEVICE_STATUS_NOT_INITIALIZED := by
      rw [hs]; decide
    unfold WiiLib_DoMaintenance
    rw [if_neg h4, if_neg h20, if_neg h3, if_neg h0, setStatus_self d _ hs]
  · intro h4 hlo hhi henc r1 r2 rest hscript
    have h20 : ¬ (d.failedParamQueryCount > WII_LIB_MAX_FAILURES_BEFORE_DISABLING) := by
      omega
    unfold WiiLib_DoMaintenance
    rw [if_neg h4, if_neg h20, if_pos hlo]
    simp [WiiLib_ConfigureDevice, Env.trans, hscript, henc]
  · intro h4 hhi
    have h20 : d.failedParamQueryCount > WII_LIB_MAX_FAILURES_BEFORE_DISABLING := hhi
    unfold WiiLib_DoMaintenance
    rw [if_neg h4, if_pos h20]

/-- C2 witness: the three amended branches evaluated at concrete devices —
a healthy Active device, a clear-text device at count 4 with two successful
configuration writes, and a device at count 21. -/
theorem C2_maintenance_thresholds_amended_witness :
    WiiLib_DoMaintenance envEmpty devBase = (some WII_LIB_RC_SUCCESS, devBase, envEmpty)
  ∧ WiiLib_DoMaintenance envC2w devC2w =
      (some WII_LIB_RC_SUCCESS, { devC2w with status := WII_LIB_DEVICE_STATUS_CONFIGURING },
        { script := [],
          ops := [BusOp.transmit [0xF0, 0x55], BusOp.transmit [0xFB, 0x00]] })
  ∧ WiiLib_DoMaintenance envEmpty devC2d =
      (some WII_LIB_RC_DEVICE_DISABLED,
        { devC2d with status := WII_LIB_DEVICE_STATUS_DISABLED }, envEmpty) := by
  refine ⟨(C2_maintenance_thresholds_amended devBase envEmpty).1 ⟨by decide, by decide⟩,
    ?_, (C2_maintenance_thresholds_amended devC2d envEmpty).2.2 (by decide) (by decide)⟩
  have h := (C2_maintenance_thresholds_amended devC2w envC2w).2.1 (by decide) (by decide)
    (by decide) (by decide) [] [] [] (by decide)
  simpa using h

/-- C3 counterexample: an uninitialized device expecting a Nunchuck whose
connection attempt reads the Classic Controller identity.  The attempt
itself reports `WII_LIB_RC_TARGET_ID_MISMATCH`, but `WiiLib_DoMaintenance`
(and hence `WiiLib_Init`, which returns its result) maps that outcome to
`WII_LIB_RC_SUCCESS` with the device marked Active, so `IdMismatch` is not
surfaced to the caller as the claim says. -/
theorem C3_mismatch_not_surfaced_counterexample :
    (WiiLib_ConnectToTarget envC3 devC3).1 = some WII_LIB_RC_TARGET_ID_MISMATCH
  ∧ (WiiLib_DoMaintenance envC3 devC3).1 = some WII_LIB_RC_SUCCESS
  ∧ (WiiLib_DoMaintenance envC3 devC3).1 ≠ some WII_LIB_RC_TARGET_ID_MISMATCH := by
  refine ⟨by decide, by decide, by decide⟩

/-- C3 (amended): when the identity read back during a connection attempt
differs from the expected kind (and the expected kind is not the Unknown
sentinel), the observed kind is recorded in the device's target field and
`WiiLib_ConnectToTarget` reports `WII_LIB_RC_TARGET_ID_MISMATCH`; the
outcome is terminal for the connection loop — `WiiLib_DoMaintenance`
performs no further attempt, marks the device Active and returns
`WII_LIB_RC_SUCCESS` (the mismatch code itself is not surfaced to the
callers of initialize / do_maintenance). -/
theorem C3_mismatch_recorded_terminal_amended :
    (∀ (d : WiiLib_Device) (e : Env) (tv : Int) (d1 : WiiLib_Device) (e1 : Env),
      (WiiLib_ConfigureDevice e d).1 = WII_LIB_RC_SUCCESS →
      WiiLib_DetermineDeviceType (WiiLib_ConfigureDevice e d).2 d = (tv, d1, e1) →
      tv ≠ d1.target → d1.target ≠ WII_LIB_TARGET_DEVICE_UNKNOWN →
      WiiLib_ConnectToTarget e d =
        (some WII_LIB_RC_TARGET_ID_MISMATCH, { d1 with target := tv }, e1))
  ∧ (∀ (d : WiiLib_Device) (e : Env) (d1 : WiiLib_Device) (e1 : Env),
      d.status = WII_LIB_DEVICE_STATUS_NOT_INITIALIZED →
      d.failedParamQueryCount ≤ WII_LIB_MAX_FAILURES_BEFORE_RECONFIGURING →
      WiiLib_ConnectToTarget e d = (some WII_LIB_RC_TARGET_ID_MISMATCH, d1, e1) →
      WiiLib_DoMaintenance e d =
        (some WII_LIB_RC_SUCCESS, { d1 with status := WII_LIB_DEVICE_STATUS_ACTIVE }, e1)) := by
  constructor
  · intro d e tv d1 e1 hcfg hdet hne hunk
    unfold WiiLib_ConnectToTarget
    rcases hc : WiiLib_ConfigureDevice e d with ⟨rcCfg, ec⟩
    rw [hc] at hcfg hdet
    simp only at hcfg hdet
    subst hcfg
    simp only [hdet]
    rw [if_neg (by simp), if_pos ⟨hne, hunk⟩]
  · intro d e d1 e1 hst hcnt hconn
    have h4 : d.status ≠ WII_LIB_DEVICE_STATUS_STRUCTURE_NOT_DEFINED := by
      rw [hst]; decide
    have h20 : ¬ (d.failedParamQueryCount > WII_LIB_MAX_FAILURES_BEFORE_DISABLING) := by
      unfold WII_LIB_MAX_FAILURES_BEFORE_RECONFIGURING at hcnt
      unfold WII_LIB_MAX_FAILURES_BEFORE_DISABLING
      omega
    have h3 : ¬ (d.failedParamQueryCount > WII_LIB_MAX_FAILURES_BEFORE_RECONFIGURING) := by
      omega
    unfold WiiLib_DoMaintenance
    rw [if_neg h4, if_neg h20, if_neg h3, if_pos hst]
    show connectAttempts WII_LIB_MAX_CONNECTION_ATTEMPTS e d = _
    rw [show WII_LIB_MAX_CONNECTION_ATTEMPTS = 4 + 1 from rfl]
    unfold connectAttempts
    rw [hconn]
    simp

/-- C3 witness: both amended parts at the concrete mismatching run — the
Classic identity is recorded, `ConnectToTarget` reports the mismatch, and
maintenance converts it into an Active device with a success return. -/
theorem C3_mismatch_recorded_terminal_amended_witness :
    WiiLib_ConnectToTarget envC3 devC3 =
      (some WII_LIB_RC_TARGET_ID_MISMATCH, { devC3det with target := tvC3 }, envC3det)
  ∧ WiiLib_DoMaintenance envC3 devC3 =
      (some WII_LIB_RC_SUCCESS,
        { devC3conn with status := WII_LIB_DEVICE_STATUS_ACTIVE }, envC3conn) := by
  refine ⟨C3_mismatch_recorded_terminal_amended.1 devC3 envC3 tvC3 devC3det envC3det
      (by decide) (by decide) (by decide) (by decide),
    C3_mismatch_recorded_terminal_amended.2 devC3 envC3 devC3conn envC3conn
      (by decide) (by decide) (by decide)⟩

/-- C4: after a successful STATUS query on a device with relative tracking
enabled, every analog axis of the relative snapshot equals the current value
minus the home value, provided each difference is representable in the
field's machine-integer type (`int8_t` for the triggers, `int16_t` for the
rest — the C assignment truncates, so the identity over unbounded integers
needs these bounds, which every decoded report satisfies). -/
theorem C4_relative_equals_current_minus_home (e : Env) (d d' : WiiLib_Device) (e' : Env)
    (hq : WiiLib_QueryParameter e d WII_LIB_PARAM_STATUS = (some WII_LIB_RC_SUCCESS, d', e'))
    (hrel : d.calculateRelativePosition ≠ 0)
    (r1 : inInt8 (d'.interfaceCurrent.triggerLeft - d'.interfaceHome.triggerLeft))
    (r2 : inInt8 (d'.interfaceCurrent.triggerRight - d'.interfaceHome.triggerRight))
    (r3 : inInt16 (d'.interfaceCurrent.analogLeftX - d'.interfaceHome.analogLeftX))
    (r4 : inInt16 (d'.interfaceCurrent.analogLeftY - d'.interfaceHome.analogLeftY))
    (r5 : inInt16 (d'.interfaceCurrent.analogRightX - d'.interfaceHome.analogRightX))
    (r6 : inInt16 (d'.interfaceCurrent.analogRightY - d'.interfaceHome.analogRightY))
    (r7 : inInt16 (d'.interfaceCurrent.accelX - d'.interfaceHome.accelX))
    (r8 : inInt16 (d'.interfaceCurrent.accelY - d'.interfaceHome.accelY))
    (r9 : inInt16 (d'.interfaceCurrent.accelZ - d'.interfaceHome.accelZ))
    (r10 : inInt16 (d'.interfaceCurrent.gyroX - d'.interfaceHome.gyroX))
    (r11 : inInt16 (d'.interfaceCurrent.gyroY - d'.interfaceHome.gyroY))
    (r12 : inInt16 (d'.interfaceCurrent.gyroZ - d'.interfaceHome.gyroZ)) :
    d'.interfaceRelative.triggerLeft =
      d'.interfaceCurrent.triggerLeft - d'.interfaceHome.triggerLeft
  ∧ d'.interfaceRelative.triggerRight =
      d'.interfaceCurrent.triggerRight - d'.interfaceHome.triggerRight
  ∧ d'.interfaceRelative.analogLeftX =
      d'.interfaceCurrent.analogLeftX - d'.interfaceHome.analogLeftX
  ∧ d'.interfaceRelative.analogLeftY =
      d'.interfaceCurrent.analogLeftY - d'.interfaceHome.analogLeftY
  ∧ d'.interfaceRelative.analogRightX =
      d'.interfaceCurrent.analogRightX - d'.interfaceHome.analogRightX
  ∧ d'.interfaceRelative.analogRightY =
      d'.interfaceCurrent.analogRightY - d'.interfaceHome.analogRightY
  ∧ d'.interfaceRelative.accelX = d'.interfaceCurrent.accelX - d'.interfaceHome.accelX
  ∧ d'.interfaceRelative.accelY = d'.interfaceCurrent.accelY - d'.interfaceHome.accelY
  ∧ d'.interfaceRelative.accelZ = d'.interfaceCurrent.accelZ - d'.interfaceHome.accelZ
  ∧ d'.interfaceRelative.gyroX = d'.interfaceCurrent.gyroX - d'.interfaceHome.gyroX
  ∧ d'.interfaceRelative.gyroY = d'.interfaceCurrent.gyroY - d'.interfaceHome.gyroY
  ∧ d'.interfaceRelative.gyroZ = d'.interfaceCurrent.gyroZ - d'.interfaceHome.gyroZ := by
  obtain ⟨lenOut, rx, hcalc, hu⟩ := query_status_success_exists e d d' e' hq
  obtain ⟨dm, hdm⟩ := update_success_relCalc _ d' hu (by rw [hcalc]; exact hrel)
  subst hdm
  exact ⟨wrap8_eq_self _ r1, wrap8_eq_self _ r2, wrap16_eq_self _ r3, wrap16_eq_self _ r4,
    wrap16_eq_self _ r5, wrap16_eq_self _ r6, wrap16_eq_self _ r7, wrap16_eq_self _ r8,
    wrap16_eq_self _ r9, wrap16_eq_self _ r10, wrap16_eq_self _ r11, wrap16_eq_self _ r12⟩

/-- C4 witness: the S6 scenario — home captured at `analogLeftX = 100`, next
poll reads `analogLeftX = 130`; the theorem applies and in particular forces
`relative.analogLeftX = 130 − 100 = 30`. -/
theorem C4_relative_equals_current_minus_home_witness :
    (devC4res.interfaceRelative.triggerLeft =
        devC4res.interfaceCurrent.triggerLeft - devC4res.interfaceHome.triggerLeft
      ∧ devC4res.interfaceRelative.triggerRight =
          devC4res.interfaceCurrent.triggerRight - devC4res.interfaceHome.triggerRight
      ∧ devC4res.interfaceRelative.analogLeftX =
          devC4res.interfaceCurrent.analogLeftX - devC4res.interfaceHome.analogLeftX
      ∧ devC4res.interfaceRelative.analogLeftY =
          devC4res.interfaceCurrent.analogLeftY - devC4res.interfaceHome.analogLeftY
      ∧ devC4res.interfaceRelative.analogRightX =
          devC4res.interfaceCurrent.analogRightX - devC4res.interfaceHome.analogRightX
      ∧ devC4res.interfaceRelative.analogRightY =
          devC4res.interfaceCurrent.analogRightY - devC4res.interfaceHome.analogRightY
      ∧ devC4res.interfaceRelative.accelX =
          devC4res.interfaceCurrent.accelX - devC4res.interfaceHome.accelX
      ∧ devC4res.interfaceRelative.accelY =
          devC4res.interfaceCurrent.accelY - devC4res.interfaceHome.accelY
      ∧ devC4res.interfaceRelative.accelZ =
          devC4res.interfaceCurrent.accelZ - devC4res.interfaceHome.accelZ
      ∧ devC4res.interfaceRelative.gyroX =
          devC4res.interfaceCurrent.gyroX - devC4res.interfaceHome.gyroX
      ∧ devC4res.interfaceRelative.gyroY =
          devC4res.interfaceCurrent.gyroY - devC4res.interfaceHome.gyroY
      ∧ devC4res.interfaceRelative.gyroZ =
          devC4res.interfaceCurrent.gyroZ - devC4res.interfaceHome.gyroZ)
  ∧ devC4res.interfaceRelative.analogLeftX = 30 :=
  ⟨C4_relative_equals_current_minus_home envC4 devC4 devC4res envC4res
      (by decide) (by decide) (by decide) (by decide) (by decide) (by decide)
      (by decide) (by decide) (by decide) (by decide) (by decide) (by decide)
      (by decide) (by decide),
    by decide⟩

/-- C5: a parameter query for a recognised register on a non-Disabled device
whose read succeeds and whose payload passes validation (decryption cannot
fail) leaves the failure counter at 0. -/
theorem C5_success_resets_failure_count (e : Env) (d : WiiLib_Device) (param lenOut : Nat)
    (rx : List Nat) (rest : List I2CResult)
    (hd : d.status ≠ WII_LIB_DEVICE_STATUS_DISABLED)
    (hlen : paramLenOut param = some lenOut)
    (hs : (queryEnvPreTxRx e d param).script = I2CResult.ok rx :: rest)
    (hv : WiiLib_ValidateDataReceived (pad20 (rx.take lenOut)) lenOut = true) :
    (WiiLib_QueryParameter e d param).2.1.failedParamQueryCount = 0 := by
  unfold WiiLib_QueryParameter
  rw [if_neg hd, hlen]
  simp only
  have htr : (queryEnvPreTxRx e d param).trans (BusOp.txrx [param] lenOut) =
      (I2CResult.ok rx,
        { script := rest,
          ops := (queryEnvPreTxRx e d param).ops ++ [BusOp.txrx [param] lenOut] }) := by
    unfold Env.trans
    rw [hs]
  rw [htr]
  simp only [queryTxRxStep]
  unfold queryAfterTxRx
  rw [if_neg (by simp [hv])]
  by_cases hp : param = WII_LIB_PARAM_STATUS
  · rw [if_pos hp]
    rcases hu : WiiLib_UpdateInterfaceTracking (commitPayload d lenOut rx) with ⟨rcU, dU⟩
    simp only
    have hc := update_count_eq (commitPayload d lenOut rx)
    rw [hu] at hc
    exact hc
  · rw [if_neg hp]
    rfl

/-- C5 witness: a concrete successful STATUS poll on the base device resets
the (already clean) counter to 0. -/
theorem C5_success_resets_failure_count_witness :
    (WiiLib_QueryParameter envC5 devBase WII_LIB_PARAM_STATUS).2.1.failedParamQueryCount = 0 :=
  C5_success_resets_failure_count envC5 devBase WII_LIB_PARAM_STATUS
    WII_LIB_PARAM_RESPONSE_LEN_DEFAULT [1, 2, 3, 4, 5, 6] []
    (by decide) (by decide) (by decide) (by decide)

/-- C8 counterexample: a 20-byte RAW_DATA response whose first sixteen bytes
are `0xFF` (and last four are zero) — a payload consisting of sixteen `0xFF`
bytes — is NOT rejected: validation compares all 20 received bytes, finds a
non-`0xFF` byte, and the query succeeds, resetting (not incrementing) the
failure counter and committing (not zeroing) the payload. -/
theorem C8_sixteen_ff_passes_at_len20_counterexample :
    (WiiLib_QueryParameter envC8 devC8 WII_LIB_PARAM_RAW_DATA).1 = some WII_LIB_RC_SUCCESS
  ∧ (WiiLib_QueryParameter envC8 devC8 WII_LIB_PARAM_RAW_DATA).1 ≠
      some WII_LIB_RC_DATA_RECEIVED_IS_INVALID
  ∧ (WiiLib_QueryParameter envC8 devC8 WII_LIB_PARAM_RAW_DATA).2.1.failedParamQueryCount = 0
  ∧ (WiiLib_QueryParameter envC8 devC8 WII_LIB_PARAM_RAW_DATA).2.1.dataCurrent ≠
      List.replicate WII_LIB_MAX_PAYLOAD_SIZE 0 := by
  refine ⟨by decide, by decide, by decide, by decide⟩

/-- C8 (amended): a payload all of whose received bytes (over the full
requested response length, 6 or 20) equal `0xFF` is rejected as
`WII_LIB_RC_DATA_RECEIVED_IS_INVALID`; the raw payload is zeroed and the
failure counter incremented. -/
theorem C8_allff_rejected_amended (e : Env) (d : WiiLib_Device) (param lenOut : Nat)
    (rx : List Nat) (rest : List I2CResult)
    (hd : d.status ≠ WII_LIB_DEVICE_STATUS_DISABLED)
    (hlen : paramLenOut param = some lenOut)
    (hs : (queryEnvPreTxRx e d param).script = I2CResult.ok rx :: rest)
    (hv : WiiLib_ValidateDataReceived (pad20 (rx.take lenOut)) lenOut = false) :
    (WiiLib_QueryParameter e d param).1 = some WII_LIB_RC_DATA_RECEIVED_IS_INVALID
  ∧ (WiiLib_QueryParameter e d param).2.1.dataCurrent =
      List.replicate WII_LIB_MAX_PAYLOAD_SIZE 0
  ∧ (WiiLib_QueryParameter e d param).2.1.failedParamQueryCount =
      (d.failedParamQueryCount + 1) % 256 := by
  have hmain : WiiLib_QueryParameter e d param =
      (some WII_LIB_RC_DATA_RECEIVED_IS_INVALID,
        incFail { d with dataCurrent := List.replicate WII_LIB_MAX_PAYLOAD_SIZE 0 },
        { script := rest,
          ops := (queryEnvPreTxRx e d param).ops ++ [BusOp.txrx [param] lenOut] }) := by
    unfold WiiLib_QueryParameter
    rw [if_neg hd, hlen]
    simp only
    have htr : (queryEnvPreTxRx e d param).trans (BusOp.txrx [param] lenOut) =
        (I2CResult.ok rx,
          { script := rest,
            ops := (queryEnvPreTxRx e d param).ops ++ [BusOp.txrx [param] lenOut] }) := by
      unfold Env.trans
      rw [hs]
    rw [htr]
    simp only [queryTxRxStep]
    unfold queryAfterTxRx
    rw [if_pos hv]
  rw [hmain]
  exact ⟨rfl, rfl, rfl⟩

/-- C8 witness: a 20-byte response of twenty `0xFF` bytes on a RAW_DATA query
is rejected, the payload zeroed and the counter bumped from 5 to 6. -/
theorem C8_allff_rejected_amended_witness :
    (WiiLib_QueryParameter envC8w devC8 WII_LIB_PARAM_RAW_DATA).1 =
        some WII_LIB_RC_DATA_RECEIVED_IS_INVALID
  ∧ (WiiLib_QueryParameter envC8w devC8 WII_LIB_PARAM_RAW_DATA).2.1.dataCurrent =
      List.replicate WII_LIB_MAX_PAYLOAD_SIZE 0
  ∧ (WiiLib_QueryParameter envC8w devC8 WII_LIB_PARAM_RAW_DATA).2.1.failedParamQueryCount =
      (devC8.failedParamQueryCount + 1) % 256 :=
  C8_allff_rejected_amended envC8w devC8 WII_LIB_PARAM_RAW_DATA
    WII_LIB_PARAM_RESPONSE_LEN_EXTENDED (List.replicate 20 0xFF) []
    (by decide) (by decide) (by decide) (by decide)

/-- C10: a successful STATUS query on a Motion Plus target commits the raw
payload and resets the failure counter, but invokes no report decoder — the
returned device is exactly `commitPayload` of the old one, whose current
interface snapshot is untouched — and the decode dispatch assigns no return
code on this path (the query's result code is the indeterminate `none`). -/
theorem C10_motionplus_status_no_decode (e : Env) (d : WiiLib_Device)
    (rx : List Nat) (rest : List I2CResult)
    (ht : d.target = WII_LIB_TARGET_DEVICE_MOTION_PLUS)
    (hd : d.status ≠ WII_LIB_DEVICE_STATUS_DISABLED)
    (hs : e.script = I2CResult.ok rx :: rest)
    (hv : WiiLib_ValidateDataReceived (pad20 (rx.take WII_LIB_PARAM_RESPONSE_LEN_DEFAULT))
        WII_LIB_PARAM_RESPONSE_LEN_DEFAULT = true) :
    WiiLib_QueryParameter e d WII_LIB_PARAM_STATUS =
      (none, commitPayload d WII_LIB_PARAM_RESPONSE_LEN_DEFAULT rx,
        { script := rest,
          ops := e.ops ++
            [BusOp.txrx [WII_LIB_PARAM_STATUS] WII_LIB_PARAM_RESPONSE_LEN_DEFAULT] })
  ∧ (commitPayload d WII_LIB_PARAM_RESPONSE_LEN_DEFAULT rx).interfaceCurrent =
      d.interfaceCurrent
  ∧ (commitPayload d WII_LIB_PARAM_RESPONSE_LEN_DEFAULT rx).failedParamQueryCount = 0 := by
  have hpre : queryEnvPreTxRx e d WII_LIB_PARAM_STATUS = e := by
    unfold queryEnvPreTxRx
    apply if_neg
    rintro ⟨-, h | h⟩ <;> rw [ht] at h <;> exact absurd h (by decide)
  refine ⟨?_, rfl, rfl⟩
  unfold WiiLib_QueryParameter
  rw [if_neg hd]
  rw [show paramLenOut WII_LIB_PARAM_STATUS = some WII_LIB_PARAM_RESPONSE_LEN_DEFAULT from rfl]
  simp only
  rw [hpre]
  have htr : e.trans (BusOp.txrx [WII_LIB_PARAM_STATUS] WII_LIB_PARAM_RESPONSE_LEN_DEFAULT) =
      (I2CResult.ok rx,
        { script := rest,
          ops := e.ops ++
            [BusOp.txrx [WII_LIB_PARAM_STATUS] WII_LIB_PARAM_RESPONSE_LEN_DEFAULT] }) := by
    unfold Env.trans
    rw [hs]
  rw [htr]
  simp only [queryTxRxStep]
  unfold queryAfterTxRx
  rw [if_neg (by simp [hv]), if_pos rfl]
  rw [update_motionplus (commitPayload d WII_LIB_PARAM_RESPONSE_LEN_DEFAULT rx) ht]

/-- C10 witness: a concrete Motion Plus STATUS poll with payload
`[1, 2, 3, 4, 5, 6]`. -/
theorem C10_motionplus_status_no_decode_witness :
    WiiLib_QueryParameter envC10 devC10 WII_LIB_PARAM_STATUS =
      (none, commitPayload devC10 WII_LIB_PARAM_RESPONSE_LEN_DEFAULT [1, 2, 3, 4, 5, 6],
        { script := [],
          ops := [BusOp.txrx [WII_LIB_PARAM_STATUS] WII_LIB_PARAM_RESPONSE_LEN_DEFAULT] })
  ∧ (commitPayload devC10 WII_LIB_PARAM_RESPONSE_LEN_DEFAULT
      [1, 2, 3, 4, 5, 6]).interfaceCurrent = devC10.interfaceCurrent
  ∧ (commitPayload devC10 WII_LIB_PARAM_RESPONSE_LEN_DEFAULT
      [1, 2, 3, 4, 5, 6]).failedParamQueryCount = 0 :=
  C10_motionplus_status_no_decode envC10 devC10 [1, 2, 3, 4, 5, 6] []
    (by decide) (by decide) (by decide) (by decide)

end WiiSpec
